import Mathlib

/-!
Verification development for a per-guild "days since" counter bot
(source: src/discord_tank_counter_bot_python.py).

The Python source is shallowly embedded below:
* `GuildState` mirrors the `GuildState` class (`__slots__` fields, lines 34-46);
  Discord snowflake identifiers are modelled as `Nat`, the counter as `Int`
  (Python integers are unbounded; ids are nonnegative snowflakes).
* `RawGuildData` models the JSON object stored per guild; a missing key and a
  JSON `null` both surface as `none`/`Option.none`, matching `dict.get`.
* `State.save`/`State.load` mirror lines 63-73: the mapping is serialized with
  stringified guild-id keys and re-parsed with `int(...)`.
* `pyFmtAux`/`evalField` model `str.format(days=...)`: escapes `\x7b\x7b`/`\x7d\x7d`,
  replacement fields (argument-name lookup, which raises for any argument
  other than `days`; attribute/index access; `!` conversions; `:` format
  specs), and unbalanced braces.  Outcomes are three-valued: `ok`, `raised`,
  or `unmodeled` for the corners of the format mini-language (exotic format
  specs, non-numeric attributes, nested specs) where the model makes no
  claim in either direction; no theorem concludes anything from `unmodeled`.
* `parseMessageLink` models the regex on line 177 character by character; the
  alternations `(?:canary\.|ptb\.)?` and `(?:app)?` are compiled to committed
  choices, which agree with backtracking here because whenever the optional
  branch is taken and later fails, the skipped branch fails on its first
  character ('c'/'p'/'a' vs 'd'/'.').  `\d` is modelled as a Unicode decimal
  digit (`pyIsDigit`), matching Python's `str`-pattern semantics.
* `updateDisplay`, `setDaysCmd`, `incCmd`, `resetCmd`, `postCmd`, `bindCmd`,
  `templateCmd`, `modeCmd` model `_update_display` and the slash-command
  handlers `set_days`, `increment`, `reset`, `post`, `bind`, `template`,
  `mode`.  Network effects are oracles (`SyncEnv`, `BindEnv`) and outcomes
  record the record mutation, whether `state.save()` ran, and what was pushed
  to the platform.
-/

/-- Decimal digit character, `chr(48 + d)`. -/
def digitCh (d : Nat) : Char := Char.ofNat (48 + d)

/-- Zero code point of every contiguous run of Unicode decimal digits
(category Nd).  Python's `\d` in a `str` pattern (no `re.ASCII`) matches
exactly these characters, and `int()` parses them; every Nd run is ten
consecutive code points with decimal values 0-9 (Unicode 14.0, as shipped
with the CPython 3.10+ line the bot targets). -/
def ndDigitZeros : List Nat :=
  [48, 1632, 1776, 1984, 2406, 2534, 2662, 2790, 2918, 3046, 3174, 3302,
   3430, 3558, 3664, 3792, 3872, 4160, 4240, 6112, 6160, 6470, 6608, 6784,
   6800, 6992, 7088, 7232, 7248, 42528, 43216, 43264, 43472, 43504, 43600,
   44016, 65296, 66720, 68912, 69734, 69872, 69942, 70096, 70384, 70736,
   70864, 71248, 71360, 71472, 71904, 72016, 72784, 73040, 73120, 92768,
   92864, 93008, 120782, 120792, 120802, 120812, 120822, 123200, 123632,
   125264, 130032]

/-- Python's `\d`: a Unicode decimal digit (category Nd). -/
def pyIsDigit (c : Char) : Bool :=
  ndDigitZeros.any fun z => z ≤ c.toNat && c.toNat < z + 10

/-- Decimal value of a Unicode decimal digit, as used by `int()`: its offset
within its Nd run. -/
def pyDigitVal (c : Char) : Nat :=
  match ndDigitZeros.find? (fun z => z ≤ c.toNat && c.toNat < z + 10) with
  | some z => c.toNat - z
  | none => 0

/-- Value of a big-endian decimal digit string, as computed by Python `int`
on the all-digit strings that occur below (any mix of Nd scripts). -/
def digitsToNat (cs : List Char) : Nat := cs.foldl (fun a c => 10 * a + pyDigitVal c) 0

/-- Decimal digits of `n` (big-endian), fuel-indexed so that the recursion is
structural; `natStr` always supplies enough fuel. -/
def natChars (fuel n : Nat) : List Char :=
  match fuel with
  | 0 => []
  | fuel + 1 => if n < 10 then [digitCh n] else natChars fuel (n / 10) ++ [digitCh (n % 10)]

/-- Python `str` on a nonnegative integer. -/
def natStr (n : Nat) : String := ⟨natChars (n + 1) n⟩

/-- Python `str` on an integer, as a character list. -/
def intChars (n : Int) : List Char :=
  if n < 0 then '-' :: natChars (n.natAbs + 1) n.natAbs else natChars (n.natAbs + 1) n.natAbs

/-- `DEFAULT_TEMPLATE` (line 32). -/
def DEFAULT_TEMPLATE : String := "{days} days since Sean and Patrick talked about tanks"

/-- The per-guild counter record (`GuildState.__slots__`, lines 34-46).
Spec names: `value = days`, `displayMode = mode`, `boundChannelId = channel_id`,
`boundMessageId = message_id`, `boundRenameChannelId = channel_name_channel_id`. -/
structure GuildState where
  guild_id : Nat
  days : Int
  message_id : Option Nat
  channel_id : Option Nat
  mode : String
  template : String
  channel_name_channel_id : Option Nat
deriving DecidableEq

/-- The JSON object stored for one guild.  A key that is absent and a key that
is `null` both read back as `none` through `dict.get`, so the optional-id
fields collapse to a single `Option`; the fields with non-`None` defaults keep
an outer `Option` recording whether the key is present. -/
structure RawGuildData where
  days : Option Int := none
  message_id : Option Nat := none
  channel_id : Option Nat := none
  mode : Option String := none
  template : Option String := none
  channel_name_channel_id : Option Nat := none
deriving DecidableEq

/-- `GuildState.__init__(guild_id, data)` (lines 36-46): field-by-field
`data.get` with the documented defaults. -/
def GuildState.ofData (gid : Nat) (d : RawGuildData) : GuildState where
  guild_id := gid
  days := d.days.getD 0
  message_id := d.message_id
  channel_id := d.channel_id
  mode := d.mode.getD "message"
  template := d.template.getD DEFAULT_TEMPLATE
  channel_name_channel_id := d.channel_name_channel_id

/-- `GuildState.to_dict` (lines 48-56). -/
def GuildState.to_dict (gs : GuildState) : RawGuildData where
  days := some gs.days
  message_id := gs.message_id
  channel_id := gs.channel_id
  mode := some gs.mode
  template := some gs.template
  channel_name_channel_id := gs.channel_name_channel_id

/-- `GuildState(guild_id)` with no stored data: the default record created on
first registry access (`State.for_guild`, lines 75-78). -/
def defaultGS (gid : Nat) : GuildState := GuildState.ofData gid {}

/-- `State.save` (lines 71-73): serialize every record under its stringified
guild id.  The JSON file image is modelled as the resulting association list
(Python dicts and `json` round-trip entries in insertion order). -/
def State.save (m : List (Nat × GuildState)) : List (String × RawGuildData) :=
  m.map fun p => (natStr p.1, p.2.to_dict)

/-- `State.load` (lines 63-69): parse each stringified key back with `int` and
rebuild the record via `GuildState.__init__`. -/
def State.load (raw : List (String × RawGuildData)) : List (Nat × GuildState) :=
  raw.map fun p => (digitsToNat p.1.data, GuildState.ofData (digitsToNat p.1.data) p.2)

/-- Outcome of a `str.format` call (or of one replacement field): the
rendered text, a raised exception, or a corner of the format mini-language
this model deliberately does not decide (`unmodeled` is absorbing, and no
theorem concludes anything from it). -/
inductive FmtOut where
  | ok (t : List Char)
  | raised
  | unmodeled
deriving DecidableEq

/-- Prepend one literal character to a successful outcome. -/
def FmtOut.push (c : Char) : FmtOut → FmtOut
  | .ok t => .ok (c :: t)
  | r => r

/-- Prepend rendered text to a successful outcome. -/
def FmtOut.emit (l : List Char) : FmtOut → FmtOut
  | .ok t => .ok (l ++ t)
  | r => r

/-- Split at the first character satisfying `p`: the part before it, and
(when found) the delimiter with the part after it. -/
def splitAtFirstD (p : Char → Bool) : List Char → List Char × Option (Char × List Char)
  | [] => ([], none)
  | c :: rest =>
    if p c then ([], some (c, rest))
    else
      let q := splitAtFirstD p rest
      (c :: q.1, q.2)

/-- The argument name of a replacement field: the field text before any
format spec (':'), conversion ('!'), attribute ('.') or index ('[').
`str.format` looks this name up in its arguments FIRST, so a field whose
argument name is not `days` always raises (KeyError, or IndexError for
positional names, or a ValueError from field parsing) no matter what
follows. -/
def argNameOf (content : List Char) : List Char :=
  ((splitAtFirstD (fun c => c = '.' || c = '[')
    ((splitAtFirstD (fun c => c = '!')
      ((splitAtFirstD (fun c => c = ':') content).1)).1)).1)

/-- One replacement field of `str.format(days=n)`, given the text between the
braces.  Faithful verdicts: a '\x7b' in the name region and any `[index]` on the
integer raise; any argument name other than `days` raises; the bare field,
the `s`/`r`/`a` conversions (which coincide with `str` on an int), the empty
and `d` format specs, and the numeric attributes `real`/`imag`/`numerator`/
`denominator` all render the expected decimal text; other conversions raise
(ValueError).  Everything else — other format specs, nested specs, other
attributes (some of which, like methods, do render), combinations — is
`unmodeled`. -/
def evalField (content : List Char) (n : Int) : FmtOut :=
  if ((splitAtFirstD (fun c => c = ':') content).1).contains '{' then .raised
  else if argNameOf content = "days".data then
    let spec? := (splitAtFirstD (fun c => c = ':') content).2
    let head := (splitAtFirstD (fun c => c = ':') content).1
    let conv? := (splitAtFirstD (fun c => c = '!') head).2
    let fname := (splitAtFirstD (fun c => c = '!') head).1
    let access? := (splitAtFirstD (fun c => c = '.' || c = '[') fname).2
    match access? with
    | some pr =>
      if pr.1 = '[' then .raised
      else
        match conv?, spec? with
        | none, none =>
          if pr.2 = "real".data ∨ pr.2 = "numerator".data then .ok (intChars n)
          else if pr.2 = "imag".data then .ok (intChars 0)
          else if pr.2 = "denominator".data then .ok (intChars 1)
          else .unmodeled
        | _, _ => .unmodeled
    | none =>
      match conv? with
      | some pc =>
        if pc.2 = ['s'] ∨ pc.2 = ['r'] ∨ pc.2 = ['a'] then
          match spec? with
          | none => .ok (intChars n)
          | some ps => if ps.2 = ([] : List Char) then .ok (intChars n) else .unmodeled
        else .raised
      | none =>
        match spec? with
        | none => .ok (intChars n)
        | some ps =>
          if ps.2 = ([] : List Char) ∨ ps.2 = ['d'] then .ok (intChars n) else .unmodeled
  else .raised

/-- `str.format(days=n)` scanner state (`_render_text`, line 88): `copy`
while copying literal text, `close` right after a lone '\x7d' (expecting its
escape partner), and `field acc` inside a replacement field, `acc` holding
the scanned field text reversed.  A '\x7b' seen in `field []` is the `\x7b\x7b`
escape (the field was entered on the previous character).  Unbalanced braces
raise (ValueError); a completed field is judged by `evalField`. -/
inductive FmtMode where
  | copy
  | close
  | field (acc : List Char)
deriving DecidableEq

def pyFmtAux (n : Int) : List Char → FmtMode → FmtOut
  | [], .copy => .ok []
  | [], .close => .raised
  | [], .field _ => .raised
  | c :: rest, .copy =>
    if c = '{' then pyFmtAux n rest (.field [])
    else if c = '}' then pyFmtAux n rest .close
    else FmtOut.push c (pyFmtAux n rest .copy)
  | c :: rest, .close =>
    if c = '}' then FmtOut.push '}' (pyFmtAux n rest .copy)
    else .raised
  | c :: rest, .field acc =>
    if c = '{' then
      if acc.isEmpty then FmtOut.push '{' (pyFmtAux n rest .copy)
      else pyFmtAux n rest (.field (c :: acc))
    else if c = '}' then
      match evalField acc.reverse n with
      | .ok sub => FmtOut.emit sub (pyFmtAux n rest .copy)
      | .raised => .raised
      | .unmodeled => .unmodeled
    else pyFmtAux n rest (.field (c :: acc))

/-- Complete one scanned field and continue with the rest of the template. -/
def fieldStep (n : Int) (content rest : List Char) : FmtOut :=
  match evalField content n with
  | .ok sub => FmtOut.emit sub (pyFmtAux n rest .copy)
  | .raised => .raised
  | .unmodeled => .unmodeled

/-- `template.format(days=days)` on a whole template. -/
def pyFormatDays (s : List Char) (n : Int) : FmtOut := pyFmtAux n s .copy

/-- `_render_text` (lines 87-88): `raised` models a raised format error. -/
def renderText (gs : GuildState) : FmtOut :=
  pyFormatDays gs.template.data gs.days

/-- The character class `[a-z0-9-]` of the substitution regex on line 107. -/
def allowedChar (c : Char) : Bool :=
  ('a' ≤ c && c ≤ 'z') || ('0' ≤ c && c ≤ '9') || c == '-'

/-- Line 107: `re.sub(r"[^a-z0-9-]", "-", text.lower())[:95]`.  `str.lower` is
modelled per character by `Char.toLower` (ASCII letters; any character that
stays outside the class is replaced by '-' regardless). -/
def sanitizeForChannelName (s : String) : String :=
  ⟨(((s.data.map Char.toLower).map fun c => if allowedChar c then c else '-').take 95)⟩

/-- Strip an expected literal prefix, returning the remainder. -/
def stripLit : List Char → List Char → Option (List Char)
  | [], s => some s
  | _ :: _, [] => none
  | p :: ps, c :: cs => if p = c then stripLit ps cs else none

/-- The optional subdomain `(?:canary\.|ptb\.)?` of the regex on line 177,
compiled to a committed choice (see the header note). -/
def stripSub (s : List Char) : List Char :=
  match stripLit "canary.".data s with
  | some r => r
  | none =>
    match stripLit "ptb.".data s with
    | some r => r
    | none => s

/-- The optional `(?:app)?` of the regex on line 177, committed choice. -/
def stripApp (s : List Char) : List Char :=
  match stripLit "app".data s with
  | some r => r
  | none => s

/-- One `(\d+)` group: the maximal run of digits (at least one), with its
`int(...)` value, and the unconsumed remainder. -/
def readNum (s : List Char) : Option (Nat × List Char) :=
  match s.takeWhile pyIsDigit with
  | [] => none
  | ds => some (digitsToNat ds, s.dropWhile pyIsDigit)

/-- The `/(\d+)/(\d+)/(\d+)` tail of the regex on line 177, after
`/channels/` has been consumed.  `re.match` does not anchor the end of the
string, so any remainder after the third digit run is ignored. -/
def parseTail (s : List Char) : Option (Nat × Nat × Nat) :=
  match readNum s with
  | none => none
  | some (g, s1) =>
    match stripLit ['/'] s1 with
    | none => none
    | some s2 =>
      match readNum s2 with
      | none => none
      | some (c, s3) =>
        match stripLit ['/'] s3 with
        | none => none
        | some s4 =>
          match readNum s4 with
          | none => none
          | some (m, _) => some (g, c, m)

/-- The `(?:app)?\.com/channels/` stage of the regex, after `discord`. -/
def afterHost (s1 : List Char) : Option (Nat × Nat × Nat) :=
  match stripLit ".com/channels/".data (stripApp s1) with
  | none => none
  | some s2 => parseTail s2

/-- The host-and-path part of the regex after the scheme and optional
subdomain: `discord(?:app)?\.com/channels/` followed by the id groups. -/
def afterScheme (s : List Char) : Option (Nat × Nat × Nat) :=
  match stripLit "discord".data s with
  | none => none
  | some s1 => afterHost s1

/-- Line 177:
`re.match(r"https://(?:canary\.|ptb\.)?discord(?:app)?\.com/channels/(\d+)/(\d+)/(\d+)", url)`
followed by `map(int, m.groups())`.  `none` models "no match". -/
def parseMessageLink (url : String) : Option (Nat × Nat × Nat) :=
  match stripLit "https://".data url.data with
  | none => none
  | some s0 => afterScheme (stripSub s0)

/-- The six host spellings the regex admits, with scheme and path prefix. -/
def hostFull : List String :=
  ["https://discord.com/channels/",
   "https://discordapp.com/channels/",
   "https://canary.discord.com/channels/",
   "https://canary.discordapp.com/channels/",
   "https://ptb.discord.com/channels/",
   "https://ptb.discordapp.com/channels/"]

/-- Split a character list at every '/' (separators not kept). -/
def splitSlash : List Char → List (List Char)
  | [] => [[]]
  | c :: rest =>
    if c = '/' then [] :: splitSlash rest
    else
      match splitSlash rest with
      | [] => [[c]]
      | seg :: more => (c :: seg) :: more

/-- A nonempty, purely numeric path segment. -/
def numericSeg (l : List Char) : Bool := !l.isEmpty && l.all pyIsDigit

/-- Modelled from the spec's words ("an HTTPS link whose path is
`/channels/\x7bguildId\x7d/\x7bchannelId\x7d/\x7bmessageId\x7d`, optionally prefixed with alternate
subdomains, with all three path segments required to be purely numeric"):
the recognized shape with the path required to END after the message id.
This is the comparison point for the claim; the code itself is
`parseMessageLink`. -/
def linkExactSpec (url : String) : Option (Nat × Nat × Nat) :=
  hostFull.findSome? fun h =>
    match stripLit h.data url.data with
    | none => none
    | some s =>
      match splitSlash s with
      | [d1, d2, d3] =>
        if numericSeg d1 && numericSeg d2 && numericSeg d3 then
          some (digitsToNat d1, digitsToNat d2, digitsToNat d3)
        else none
      | _ => none

/-- Try one host spelling: demand it as a literal prefix, then parse the three
numeric path segments. -/
def tryFrom (q s : List Char) : Option (Nat × Nat × Nat) :=
  match stripLit q s with
  | none => none
  | some r => parseTail r

/-- Modelled from the spec's words, amended as the code forces: the recognized
link shape is required only as a PREFIX of the input; the three ids are the
maximal digit runs and any trailing text after the message-id run is
ignored. -/
def linkPrefixSpec (url : String) : Option (Nat × Nat × Nat) :=
  hostFull.findSome? fun h => tryFrom h.data url.data

/-- Result of `channel.fetch_message` in the Display Synchronizer. -/
inductive FetchResult where
  | found
  | notFound
deriving DecidableEq

/-- External-platform oracle for `_update_display`: whether fetching a given
(channel id, message id) raises `discord.NotFound`, and whether renaming the
target channel raises `discord.Forbidden`. -/
structure SyncEnv where
  fetchMessage : Nat → Nat → FetchResult
  renameForbidden : Bool

/-- Observable outcome of one `_update_display` call: the (possibly mutated)
record, whether `state.save()` ran, the content written by `msg.edit`, and the
name passed to `channel.edit`. -/
structure SyncOutcome where
  gs : GuildState
  saved : Bool
  editedContent : Option String
  renamedTo : Option String
deriving DecidableEq

/-- Python truthiness of an optional id (`if gs.channel_id and gs.message_id`):
`None` and `0` are falsy. -/
def truthyId : Option Nat → Bool
  | none => false
  | some n => n != 0

/-- `_update_display` (lines 90-111).  The result is `none` when an uncaught
exception propagates (a format error from `_render_text`) or when the render
falls outside the modeled format fragment; otherwise `some` of the outcome.  On `discord.NotFound` for the bound message, only
`gs.message_id` is cleared, then `state.save()` runs and the call returns
(lines 96-100). -/
def updateDisplay (env : SyncEnv) (gs : GuildState) : Option SyncOutcome :=
  if gs.mode = "message" then
    match gs.channel_id, gs.message_id with
    | some cid, some mid =>
      if cid != 0 && mid != 0 then
        match env.fetchMessage cid mid with
        | .notFound => some ⟨{ gs with message_id := none }, true, none, none⟩
        | .found =>
          match renderText gs with
          | .ok t => some ⟨gs, false, some ⟨t⟩, none⟩
          | .raised => none
          | .unmodeled => none
      else some ⟨gs, false, none, none⟩
    | _, _ => some ⟨gs, false, none, none⟩
  else if gs.mode = "channel_name" then
    match gs.channel_name_channel_id with
    | some cid =>
      if cid != 0 then
        match renderText gs with
        | .ok t =>
          some (if env.renameForbidden then ⟨gs, false, none, none⟩
            else ⟨gs, false, none, some (sanitizeForChannelName ⟨t⟩)⟩)
        | .raised => none
        | .unmodeled => none
      else some ⟨gs, false, none, none⟩
    | none => some ⟨gs, false, none, none⟩
  else some ⟨gs, false, none, none⟩

/-- `/tank set` handler body (`set_days`, lines 140-144): the record mutation.
The `app_commands.Range[int, 0, 10000]` bound is validated by the platform
before the handler runs; it appears as a hypothesis where relevant. -/
def setDaysCmd (gs : GuildState) (d : Int) : GuildState := { gs with days := d }

/-- `/tank inc` handler body (`increment`, line 152). -/
def incCmd (gs : GuildState) : GuildState := { gs with days := gs.days + 1 }

/-- `/tank reset` handler body (`reset`, line 161). -/
def resetCmd (gs : GuildState) : GuildState := { gs with days := 0 }

/-- `/tank post` record mutation (lines 133-136), after the platform returned
the posted message's channel and message ids. -/
def postCmd (gs : GuildState) (cid mid : Nat) : GuildState :=
  { gs with mode := "message", channel_id := some cid, message_id := some mid }

/-- `/tank template` handler (`template`, lines 204-213): rejects a template
without the `\x7bdays\x7d` placeholder; the Bool records whether the record was
mutated and saved. -/
def countSub (pat : List Char) : List Char → Nat
  | [] => if pat.isPrefixOf ([] : List Char) then 1 else 0
  | c :: t => (if pat.isPrefixOf (c :: t) then 1 else 0) + countSub pat t

def hasDaysPlaceholder (s : String) : Bool := countSub "{days}".data s.data != 0

def templateCmd (gs : GuildState) (text : String) : GuildState × Bool :=
  if hasDaysPlaceholder text then ({ gs with template := text }, true) else (gs, false)

/-- Outcome of the `/tank bind` validation chain (lines 174-200). -/
inductive BindResult where
  | invalidUrl
  | wrongGuild
  | fetchFailed
  | notOwn
  | ok
deriving DecidableEq

/-- External-platform oracle for `bind`: fetching (channel id, message id)
either raises NotFound (`none`) or yields the message author's id. -/
structure BindEnv where
  fetchAuthor : Nat → Nat → Option Nat
  botId : Nat

/-- `/tank bind` handler (`bind`, lines 174-200): parse the URL, check the
guild, fetch the message, check ownership, then bind.  Returns the result
message class, the record, and whether `state.save()` ran. -/
def bindCmd (env : BindEnv) (gs : GuildState) (curGuild : Nat) (url : String) :
    BindResult × GuildState × Bool :=
  match parseMessageLink url with
  | none => (.invalidUrl, gs, false)
  | some (g, c, m) =>
    if g != curGuild then (.wrongGuild, gs, false)
    else
      match env.fetchAuthor c m with
      | none => (.fetchFailed, gs, false)
      | some a =>
        if a != env.botId then (.notOwn, gs, false)
        else (.ok, { gs with mode := "message", channel_id := some c, message_id := some m }, true)

/-- Outcome class of the `/tank mode` handler. -/
inductive ModeResult where
  | okSet
  | needChannel
deriving DecidableEq

/-- `/tank mode` handler (`mode`, lines 221-232), up to the `state.save()`
call: NOTE the source sets `gs.mode = kind.value` BEFORE validating that a
channel was supplied in channel_name mode, so the in-memory record's mode is
mutated even on the validation-error path (where the save flag stays false). -/
def modeCmd (gs : GuildState) (kind : String) (channel : Option Nat) :
    ModeResult × GuildState × Bool :=
  let gs1 := { gs with mode := kind }
  if kind = "channel_name" then
    match channel with
    | none => (.needChannel, gs1, false)
    | some ch => (.okSet, { gs1 with channel_name_channel_id := some ch }, true)
  else (.okSet, gs1, true)

/-- The full `/tank mode` command: record mutation, save, then
`_update_display` (which may itself mutate and save on the NotFound path).
If `_update_display` raises, the mutation and save have already happened. -/
def modeCmdFull (env : SyncEnv) (gs : GuildState) (kind : String) (channel : Option Nat) :
    ModeResult × GuildState × Bool :=
  match modeCmd gs kind channel with
  | (.needChannel, gs1, saved) => (.needChannel, gs1, saved)
  | (.okSet, gs1, saved) =>
    match updateDisplay env gs1 with
    | some o => (.okSet, o.gs, saved || o.saved)
    | none => (.okSet, gs1, saved)

/-- Records reachable from the lazily-created default through the commands the
claims enumerate: `set` (with its platform-validated 0-10000 range), `inc`,
`reset`, `template`, `mode`, `post`, `bind`, `sync`, and a save/load
round-trip through the store. -/
inductive Reachable : GuildState → Prop where
  | default (gid : Nat) : Reachable (defaultGS gid)
  | loaded (gs : GuildState) : Reachable gs →
      Reachable (GuildState.ofData gs.guild_id gs.to_dict)
  | set (gs : GuildState) (d : Int) : Reachable gs → 0 ≤ d → d ≤ 10000 →
      Reachable (setDaysCmd gs d)
  | inc (gs : GuildState) : Reachable gs → Reachable (incCmd gs)
  | reset (gs : GuildState) : Reachable gs → Reachable (resetCmd gs)
  | post (gs : GuildState) (cid mid : Nat) : Reachable gs → Reachable (postCmd gs cid mid)
  | template (gs : GuildState) (t : String) : Reachable gs → Reachable (templateCmd gs t).1
  | mode (gs : GuildState) (kind : String) (ch : Option Nat) : Reachable gs →
      Reachable (modeCmd gs kind ch).2.1
  | bind (gs : GuildState) (env : BindEnv) (g : Nat) (url : String) : Reachable gs →
      Reachable (bindCmd env gs g url).2.1
  | sync (gs : GuildState) (env : SyncEnv) (o : SyncOutcome) : Reachable gs →
      updateDisplay env gs = some o → Reachable o.gs

/-- Fixture: a sync environment whose message fetch always reports NotFound. -/
def envNF : SyncEnv := { fetchMessage := fun _ _ => .notFound, renameForbidden := false }

/-- Fixture: a default record bound to channel 5, message 7 (message mode). -/
def gsBound : GuildState := { defaultGS 1 with channel_id := some 5, message_id := some 7 }

/-- Fixture: a record whose template contains the value placeholder exactly
once but also a second, unknown replacement field. -/
def gsStray : GuildState := { defaultGS 1 with template := "{days} {x}" }

/-- Fixture: a record whose template's only replacement field addresses the
`days` argument with the decimal format spec (`\x7bdays:d\x7d`), which renders
without raising. -/
def gsSpecD : GuildState :=
  { defaultGS 1 with template := ⟨['{', 'd', 'a', 'y', 's', ':', 'd', '}']⟩ }

/-- Fixture: a bind environment in which every message fetch reports
NotFound. -/
def envBindNone : BindEnv where
  fetchAuthor := fun _ _ => none
  botId := 0

/-- A chunk of literal template text: no brace characters at all. -/
def braceFree (l : List Char) : Bool := l.all fun c => c != '{' && c != '}'

/-! ### Decimal strings -/

theorem pyDigitVal_digitCh (d : Nat) (hd : d < 10) : pyDigitVal (digitCh d) = d := by
  interval_cases d <;> rfl

theorem digitsToNat_append_one (l : List Char) (c : Char) :
    digitsToNat (l ++ [c]) = 10 * digitsToNat l + pyDigitVal c := by
  simp [digitsToNat, List.foldl_append]

theorem natChars_succ (fuel n : Nat) :
    natChars (fuel + 1) n =
      if n < 10 then [digitCh n] else natChars fuel (n / 10) ++ [digitCh (n % 10)] := rfl

/-- Parsing a decimal rendering recovers the number (`int(str(n)) == n`). -/
theorem digitsToNat_natChars (n : Nat) : ∀ fuel, n ≤ fuel → digitsToNat (natChars (fuel + 1) n) = n := by
  induction n using Nat.strong_induction_on with
  | _ n ih =>
    intro fuel hf
    by_cases h : n < 10
    · rw [natChars_succ, if_pos h]
      simp [digitsToNat, pyDigitVal_digitCh n h]
    · obtain ⟨f, rfl⟩ : ∃ f, fuel = f + 1 := ⟨fuel - 1, by omega⟩
      have hdiv : n / 10 < n := Nat.div_lt_self (by omega) (by omega)
      have hle : n / 10 ≤ f := by omega
      have hmod : n % 10 < 10 := Nat.mod_lt _ (by omega)
      rw [natChars_succ, if_neg h, digitsToNat_append_one, ih (n / 10) hdiv f hle,
        pyDigitVal_digitCh (n % 10) hmod]
      omega

theorem digitsToNat_natStr (n : Nat) : digitsToNat (natStr n).data = n :=
  digitsToNat_natChars n n le_rfl

/-! ### The format scanner -/

theorem braceFree_cons {c : Char} {l : List Char} (h : braceFree (c :: l) = true) :
    c ≠ '{' ∧ c ≠ '}' ∧ braceFree l = true := by
  rw [braceFree, List.all_cons, Bool.and_eq_true, Bool.and_eq_true] at h
  exact ⟨by simpa using h.1.1, by simpa using h.1.2, h.2⟩

/-- Copying a brace-free chunk of literal text. -/
theorem pyFmtAux_copy_append (n : Int) :
    ∀ l t : List Char, braceFree l = true →
      pyFmtAux n (l ++ t) .copy = FmtOut.emit l (pyFmtAux n t .copy) := by
  intro l
  induction l with
  | nil =>
    intro t _
    rw [List.nil_append]
    cases pyFmtAux n t .copy <;> rfl
  | cons c l ih =>
    intro t hb
    obtain ⟨hc1, hc2, hb⟩ := braceFree_cons hb
    rw [List.cons_append]
    simp only [pyFmtAux]
    rw [if_neg hc1, if_neg hc2, ih t hb]
    cases pyFmtAux n t .copy <;> rfl

theorem pyFmtAux_braceFree (n : Int) (l : List Char) (h : braceFree l = true) :
    pyFmtAux n l .copy = .ok l := by
  have := pyFmtAux_copy_append n l [] h
  simpa [pyFmtAux, FmtOut.emit] using this

/-- Ending a scanned field at its closing brace. -/
theorem pyFmtAux_close_field (n : Int) (acc rest : List Char) :
    pyFmtAux n ('}' :: rest) (.field acc) = fieldStep n acc.reverse rest := by
  have h1 : pyFmtAux n ('}' :: rest) (.field acc) =
      match evalField acc.reverse n with
      | .ok sub => FmtOut.emit sub (pyFmtAux n rest .copy)
      | .raised => .raised
      | .unmodeled => .unmodeled := rfl
  rw [h1]
  cases hev : evalField acc.reverse n <;> simp [fieldStep, hev]

/-- Scanning field text (anything but a closing brace) into the
accumulator. -/
theorem pyFmtAux_field_scan (n : Int) :
    ∀ (name acc rest : List Char), acc ≠ [] → '}' ∉ name →
      pyFmtAux n (name ++ '}' :: rest) (.field acc) =
        fieldStep n (acc.reverse ++ name) rest := by
  intro name
  induction name with
  | nil =>
    intro acc rest _ _
    rw [List.nil_append, List.append_nil]
    exact pyFmtAux_close_field n acc rest
  | cons c name ih =>
    intro acc rest hacc hmem
    have hc : c ≠ '}' := fun e => hmem (by rw [e]; exact List.mem_cons_self _ _)
    have hrest : '}' ∉ name := fun m => hmem (List.mem_cons_of_mem _ m)
    have hne : acc.isEmpty = false := by
      cases acc
      · exact absurd rfl hacc
      · rfl
    have hkey : pyFmtAux n ((c :: name) ++ '}' :: rest) (.field acc) =
        pyFmtAux n (name ++ '}' :: rest) (.field (c :: acc)) := by
      rw [List.cons_append]
      simp only [pyFmtAux]
      by_cases hc2 : c = '{'
      · rw [if_pos hc2, if_neg (show ¬(acc.isEmpty = true) from by rw [hne]; simp)]
      · rw [if_neg hc2, if_neg hc]
    rw [hkey, ih (c :: acc) rest (by simp) hrest]
    simp [List.reverse_cons, List.append_assoc]

/-- Entering a replacement field from literal text. -/
theorem pyFmtAux_enter_field (n : Int) (name rest : List Char) (hmem : '}' ∉ name)
    (hstart : name.head? ≠ some '{') :
    pyFmtAux n ('{' :: (name ++ '}' :: rest)) .copy = fieldStep n name rest := by
  cases name with
  | nil =>
    have h1 : pyFmtAux n ('{' :: ([] ++ '}' :: rest)) .copy =
        pyFmtAux n ('}' :: rest) (.field []) := rfl
    rw [h1, pyFmtAux_close_field]
    rfl
  | cons c name =>
    have hc1 : c ≠ '{' := fun e => hstart (by rw [e]; rfl)
    have hc2 : c ≠ '}' := fun e => hmem (by rw [e]; exact List.mem_cons_self _ _)
    have hrest : '}' ∉ name := fun m => hmem (List.mem_cons_of_mem _ m)
    have h1 : pyFmtAux n ('{' :: ((c :: name) ++ '}' :: rest)) .copy =
        pyFmtAux n ((c :: name) ++ '}' :: rest) (.field []) := rfl
    have h2 : pyFmtAux n ((c :: name) ++ '}' :: rest) (.field []) =
        pyFmtAux n (name ++ '}' :: rest) (.field [c]) := by
      rw [List.cons_append]
      simp only [pyFmtAux]
      rw [if_neg hc1, if_neg hc2]
    rw [h1, h2, pyFmtAux_field_scan n name [c] rest (by simp) hrest]
    rfl

/-- A field whose argument name is not `days` raises no matter what follows
the name: `str.format` resolves the argument before conversions, specs or
attribute access. -/
theorem evalField_raised_of_argName (content : List Char) (n : Int)
    (h : argNameOf content ≠ "days".data) : evalField content n = .raised := by
  unfold evalField
  by_cases hc : ((splitAtFirstD (fun c => c = ':') content).1).contains '{' = true
  · rw [if_pos hc]
  · rw [if_neg hc, if_neg h]

/-- The bare value placeholder renders the decimal string of the value. -/
theorem evalField_days (n : Int) : evalField "days".data n = .ok (intChars n) := rfl

/-- A template whose only brace construct is one `\x7bdays\x7d` placeholder
formats to the text with the decimal value substituted for the
placeholder. -/
theorem pyFormatDays_good (n : Int) (pre post : List Char)
    (h1 : braceFree pre = true) (h2 : braceFree post = true) :
    pyFormatDays (pre ++ '{' :: 'd' :: 'a' :: 'y' :: 's' :: '}' :: post) n =
      .ok (pre ++ (intChars n ++ post)) := by
  unfold pyFormatDays
  rw [pyFmtAux_copy_append n pre _ h1,
    show ('{' :: 'd' :: 'a' :: 'y' :: 's' :: '}' :: post) =
      ('{' :: ("days".data ++ '}' :: post)) from rfl,
    pyFmtAux_enter_field n "days".data post (by decide) (by decide),
    show fieldStep n "days".data post =
      FmtOut.emit (intChars n) (pyFmtAux n post .copy) from by
        unfold fieldStep
        rw [evalField_days],
    pyFmtAux_braceFree n post h2]
  rfl

/-- A replacement field naming an argument other than `days` makes the format
call raise. -/
theorem pyFormatDays_badArg (n : Int) (pre name post : List Char)
    (h1 : braceFree pre = true) (hmem : '}' ∉ name) (hstart : name.head? ≠ some '{')
    (hne : argNameOf name ≠ "days".data) :
    pyFormatDays (pre ++ '{' :: (name ++ '}' :: post)) n = .raised := by
  unfold pyFormatDays
  rw [pyFmtAux_copy_append n pre _ h1, pyFmtAux_enter_field n name post hmem hstart,
    show fieldStep n name post = .raised from by
      unfold fieldStep
      rw [evalField_raised_of_argName name n hne]]
  rfl

/-- An unmatched opening brace at the end makes the format call raise. -/
theorem pyFormatDays_openEnd (n : Int) (pre : List Char) (h1 : braceFree pre = true) :
    pyFormatDays (pre ++ ['{']) n = .raised := by
  unfold pyFormatDays
  rw [pyFmtAux_copy_append n pre _ h1]
  rfl

/-- An unmatched closing brace at the end makes the format call raise. -/
theorem pyFormatDays_closeEnd (n : Int) (pre : List Char) (h1 : braceFree pre = true) :
    pyFormatDays (pre ++ ['}']) n = .raised := by
  unfold pyFormatDays
  rw [pyFmtAux_copy_append n pre _ h1]
  rfl

/-! ### Literal-prefix stripping -/

theorem stripLit_eq_some : ∀ {p s r : List Char}, stripLit p s = some r ↔ s = p ++ r := by
  intro p
  induction p with
  | nil => intro s r; simp [stripLit]
  | cons a p ih =>
    intro s r
    cases s with
    | nil => simp [stripLit]
    | cons b s =>
      by_cases hab : a = b
      · subst hab
        simp [stripLit, ih]
      · simp only [stripLit, if_neg hab]
        constructor
        · intro hc
          exact Option.noConfusion hc
        · intro hc
          rw [List.cons_append] at hc
          injection hc with h1 _
          exact absurd h1.symm hab

theorem stripLit_append_left (p q s : List Char) :
    stripLit (p ++ q) s = (stripLit p s).bind (stripLit q) := by
  induction p generalizing s with
  | nil => simp [stripLit]
  | cons a p ih =>
    cases s with
    | nil => simp [stripLit]
    | cons b s =>
      rw [List.cons_append]
      by_cases hab : a = b
      · simp [stripLit, hab, ih]
      · simp [stripLit, hab]

theorem stripLit_self_append (p s : List Char) : stripLit p (p ++ s) = some s :=
  stripLit_eq_some.mpr rfl

theorem tryFrom_append (p q s r : List Char) (hp : stripLit p s = some r) :
    tryFrom (p ++ q) s = tryFrom q r := by
  unfold tryFrom
  rw [stripLit_append_left, hp]
  rfl

theorem tryFrom_none_left (p q s : List Char) (hp : stripLit p s = none) :
    tryFrom (p ++ q) s = none := by
  unfold tryFrom
  rw [stripLit_append_left, hp]
  rfl

theorem tryFrom_head_ne {a b : Char} (h : a ≠ b) (p s : List Char) :
    tryFrom (a :: p) (b :: s) = none := by
  unfold tryFrom
  rw [show stripLit (a :: p) (b :: s) = none by simp [stripLit, h]]

/-! ### The store -/

theorem ofData_to_dict (g : Nat) (gs : GuildState) (h : gs.guild_id = g) :
    GuildState.ofData g gs.to_dict = gs := by
  cases gs
  simp only [GuildState.ofData, GuildState.to_dict, Option.getD_some]
  simp_all

/-! ### The display synchronizer -/

/-- `_update_display` either leaves the record alone or only clears the bound
message id (the NotFound recovery path). -/
theorem updateDisplay_cases (env : SyncEnv) (gs : GuildState) (o : SyncOutcome)
    (h : updateDisplay env gs = some o) :
    o.gs = gs ∨ o.gs = { gs with message_id := none } := by
  unfold updateDisplay at h
  repeat' split at h
  all_goals
    first
      | exact Option.noConfusion h
      | (injection h with h; subst h;
         first
           | exact Or.inl rfl
           | exact Or.inr rfl)

/-- A record not in message mode is never mutated by `_update_display`. -/
theorem updateDisplay_not_message (env : SyncEnv) (gs : GuildState) (o : SyncOutcome)
    (hm : gs.mode ≠ "message") (h : updateDisplay env gs = some o) : o.gs = gs := by
  unfold updateDisplay at h
  rw [if_neg hm] at h
  repeat' split at h
  all_goals
    first
      | exact Option.noConfusion h
      | (injection h with h; subst h; rfl)

/-! ### Claims -/

/-- Claim C1 (amended): in message mode with both bound ids set (and nonzero,
per Python truthiness), a NotFound on the bound message makes `sync` clear the
bound MESSAGE id only, persist the record, and return without raising; the
bound channel id keeps its old value, and a subsequent `sync` is a no-op
because the message branch requires both ids. -/
theorem C1_notfound_recovery (env : SyncEnv) (gs : GuildState) (cid mid : Nat)
    (hm : gs.mode = "message") (hc : gs.channel_id = some cid)
    (hmid : gs.message_id = some mid) (hc0 : cid ≠ 0) (hm0 : mid ≠ 0)
    (hf : env.fetchMessage cid mid = .notFound) :
    updateDisplay env gs = some ⟨{ gs with message_id := none }, true, none, none⟩ ∧
    ({ gs with message_id := none } : GuildState).channel_id = gs.channel_id ∧
    updateDisplay env { gs with message_id := none } =
      some ⟨{ gs with message_id := none }, false, none, none⟩ := by
  refine ⟨?_, rfl, ?_⟩
  · have hstep : updateDisplay env gs =
        if (cid != 0 && mid != 0) = true then
          match env.fetchMessage cid mid with
          | .notFound => some ⟨{ gs with message_id := none }, true, none, none⟩
          | .found =>
            match renderText gs with
            | .ok t => some ⟨gs, false, some ⟨t⟩, none⟩
            | .raised => none
            | .unmodeled => none
        else some ⟨gs, false, none, none⟩ := by
      unfold updateDisplay
      rw [if_pos hm, hc, hmid]
    rw [hstep, if_pos (by simp [hc0, hm0]), hf]
  · unfold updateDisplay
    rw [if_pos (show ({ gs with message_id := none } : GuildState).mode = "message" from hm),
      show ({ gs with message_id := none } : GuildState).channel_id = some cid from hc]

/-- Witness for C1 at a concrete bound record and a NotFound oracle. -/
theorem C1_witness :
    updateDisplay envNF gsBound = some ⟨{ gsBound with message_id := none }, true, none, none⟩ ∧
    ({ gsBound with message_id := none } : GuildState).channel_id = gsBound.channel_id ∧
    updateDisplay envNF { gsBound with message_id := none } =
      some ⟨{ gsBound with message_id := none }, false, none, none⟩ :=
  C1_notfound_recovery envNF gsBound 5 7 rfl rfl rfl (by decide) (by decide) rfl

/-- Counterexample to Claim C1 as stated: on the NotFound recovery path the
record's bound CHANNEL id is NOT cleared — here it stays `some 5` rather than
becoming `none`. -/
theorem C1_counterexample :
    (updateDisplay envNF gsBound).map (fun o => o.gs.channel_id) = some (some 5) ∧
    (updateDisplay envNF gsBound).map (fun o => o.gs.channel_id) ≠ some none := by
  exact ⟨rfl, by decide⟩

/-- Claim C2 (code bug): `mode(channel_name)` without a channel returns the
validation error and skips the save, but the source mutates `gs.mode` BEFORE
the check, so the in-memory record's display mode has changed — here from
"message" to "channel_name" — contradicting the spec's "does not change
`displayMode`". -/
theorem C2_mode_mutation :
    (∀ (env : SyncEnv) (gs : GuildState),
        modeCmdFull env gs "channel_name" none =
          (.needChannel, { gs with mode := "channel_name" }, false)) ∧
    ({ defaultGS 1 with mode := "channel_name" } : GuildState).mode ≠ (defaultGS 1).mode :=
  ⟨fun _ _ => rfl, by decide⟩

/-- Claim C3: saving a mapping of records and loading it back yields the same
mapping (keys are stringified then re-parsed; records round-trip through
`to_dict`/`__init__`), provided each record's `guild_id` matches its key, as
holds for every mapping the registry builds. -/
theorem C3_save_load_roundtrip (m : List (Nat × GuildState))
    (h : ∀ p ∈ m, p.2.guild_id = p.1) : State.load (State.save m) = m := by
  induction m with
  | nil => rfl
  | cons p m ih =>
    obtain ⟨k, gs⟩ := p
    have hp : gs.guild_id = k := h (k, gs) (List.mem_cons_self _ m)
    have hm : ∀ q ∈ m, q.2.guild_id = q.1 := fun q hq => h q (List.mem_cons_of_mem _ hq)
    have tail := ih hm
    simp only [State.save, State.load, List.map_cons] at tail ⊢
    rw [show digitsToNat (natStr k).data = k from digitsToNat_natStr k,
      ofData_to_dict k gs hp, tail]

/-- Witness for C3 on a one-record mapping. -/
theorem C3_witness : State.load (State.save [(5, defaultGS 5)]) = [(5, defaultGS 5)] :=
  C3_save_load_roundtrip [(5, defaultGS 5)] (by decide)

/-- Claim C4 (amended): for a record whose template is literal text around a
single `\x7bdays\x7d` placeholder (no other brace construct), `render` returns the
template text with the decimal string of `value` substituted exactly once, in
place of the placeholder. -/
theorem C4_render_substitutes (gs : GuildState) (pre post : List Char)
    (h : gs.template.data = pre ++ '{' :: 'd' :: 'a' :: 'y' :: 's' :: '}' :: post)
    (h1 : braceFree pre = true) (h2 : braceFree post = true) :
    renderText gs = .ok (pre ++ (intChars gs.days ++ post)) := by
  unfold renderText
  rw [show pyFormatDays gs.template.data gs.days =
      pyFormatDays (pre ++ '{' :: 'd' :: 'a' :: 'y' :: 's' :: '}' :: post) gs.days from by rw [h],
    pyFormatDays_good gs.days pre post h1 h2]

/-- Witness for C4 at the default record. -/
theorem C4_witness :
    renderText (defaultGS 1) = .ok "0 days since Sean and Patrick talked about tanks".data := by
  have h := C4_render_substitutes (defaultGS 1) []
    (" days since Sean and Patrick talked about tanks".data) rfl rfl (by decide)
  exact h.trans (by decide)

/-- Counterexample to Claim C4 as stated: `gsStray`'s template contains the
placeholder exactly once (occurrence count 1), yet `render` raises (KeyError
on the second field) instead of returning the substituted text. -/
theorem C4_counterexample :
    countSub "{days}".data gsStray.template.data = 1 ∧ renderText gsStray = .raised :=
  ⟨rfl, rfl⟩

/-- Claim C5: channel-name sanitization always yields at most 95 characters,
all of them in `[a-z0-9-]`. -/
theorem C5_sanitize_safe (s : String) :
    (sanitizeForChannelName s).length ≤ 95 ∧
    (sanitizeForChannelName s).data.all allowedChar = true := by
  constructor
  · show (((s.data.map Char.toLower).map fun c =>
        if allowedChar c then c else '-').take 95).length ≤ 95
    simpa using List.length_take_le 95 _
  · show (((s.data.map Char.toLower).map fun c =>
        if allowedChar c then c else '-').take 95).all allowedChar = true
    rw [List.all_eq_true]
    intro c hc
    have hc2 := List.take_subset 95 _ hc
    obtain ⟨a, _, rfl⟩ := List.mem_map.mp hc2
    by_cases h : allowedChar a = true
    · rw [if_pos h]; exact h
    · rw [if_neg h]; decide

/-- Claim C7: a parseable message URL whose guild segment differs from the
current guild makes `bind` fail with the wrong-guild error, leaving the record
(and in particular its binding fields and mode) untouched and unsaved. -/
theorem C7_bind_wrong_guild (env : BindEnv) (gs : GuildState) (cg : Nat) (url : String)
    (g c m : Nat) (hp : parseMessageLink url = some (g, c, m)) (hg : g ≠ cg) :
    bindCmd env gs cg url = (.wrongGuild, gs, false) := by
  have hstep : bindCmd env gs cg url =
      if (g != cg) = true then (.wrongGuild, gs, false)
      else
        match env.fetchAuthor c m with
        | none => (.fetchFailed, gs, false)
        | some a =>
          if (a != env.botId) = true then (.notOwn, gs, false)
          else (.ok, { gs with mode := "message", channel_id := some c, message_id := some m },
            true) := by
    unfold bindCmd
    rw [hp]
  rw [hstep, if_pos (by simpa using hg)]

/-- Witness for C7: binding a guild-99 link while in guild 1. -/
theorem C7_witness :
    bindCmd envBindNone (defaultGS 1) 1 "https://discord.com/channels/99/5/7" =
      (.wrongGuild, defaultGS 1, false) :=
  C7_bind_wrong_guild envBindNone (defaultGS 1) 1 "https://discord.com/channels/99/5/7"
    99 5 7 rfl (by decide)

/-- Claim C8: the default record starts at 0 and every reachable record keeps
`value = days` nonnegative through set (validated 0-10000), inc, reset,
template, mode, post, bind, sync, and a store round-trip. -/
theorem C8_value_nonneg :
    (∀ gid : Nat, (defaultGS gid).days = 0) ∧
    ∀ gs : GuildState, Reachable gs → 0 ≤ gs.days := by
  refine ⟨fun _ => rfl, ?_⟩
  intro gs h
  induction h with
  | default gid => exact le_refl 0
  | loaded gs hr ih => rw [ofData_to_dict gs.guild_id gs rfl]; exact ih
  | set gs d hr h0 h1 ih => simpa [setDaysCmd] using h0
  | inc gs hr ih => simp only [incCmd]; omega
  | reset gs hr ih => simp [resetCmd]
  | post gs cid mid hr ih => simpa [postCmd] using ih
  | template gs t hr ih => unfold templateCmd; split <;> simpa using ih
  | mode gs kind ch hr ih =>
    simp only [modeCmd]
    split
    · cases ch <;> simpa using ih
    · simpa using ih
  | bind gs env g url hr ih =>
    simp only [bindCmd]
    repeat' split
    all_goals simpa using ih
  | sync gs env o hr hsync ih =>
    rcases updateDisplay_cases env gs o hsync with h | h <;> rw [h] <;> simpa using ih

/-- Witness for C8 after one increment from the default record. -/
theorem C8_witness : (0 : Int) ≤ (incCmd (defaultGS 1)).days :=
  C8_value_nonneg.2 (incCmd (defaultGS 1)) (Reachable.inc _ (Reachable.default 1))

/-- Claim C9: switching to channel_name mode (with a channel) leaves the
message-mode binding fields untouched, and switching to message mode leaves
the rename-target channel untouched — a record holds both bindings at once,
with the mode selecting the active one.  Both statements cover the full
command including its `_update_display` call. -/
theorem C9_mode_binding_frame (env : SyncEnv) (gs : GuildState) (ch : Nat) (chOpt : Option Nat) :
    (((modeCmdFull env gs "channel_name" (some ch)).2.1).channel_id = gs.channel_id ∧
     ((modeCmdFull env gs "channel_name" (some ch)).2.1).message_id = gs.message_id) ∧
    ((modeCmdFull env gs "message" chOpt).2.1).channel_name_channel_id =
      gs.channel_name_channel_id := by
  have hful1 : modeCmdFull env gs "channel_name" (some ch) =
      match updateDisplay env
        { gs with mode := "channel_name", channel_name_channel_id := some ch } with
      | some o => (.okSet, o.gs, true || o.saved)
      | none =>
        (.okSet, { gs with mode := "channel_name", channel_name_channel_id := some ch },
          true) := rfl
  have hful2 : modeCmdFull env gs "message" chOpt =
      match updateDisplay env { gs with mode := "message" } with
      | some o => (.okSet, o.gs, true || o.saved)
      | none => (.okSet, { gs with mode := "message" }, true) := rfl
  refine ⟨?_, ?_⟩
  · rw [hful1]
    cases hsync : updateDisplay env
        { gs with mode := "channel_name", channel_name_channel_id := some ch } with
    | none => exact ⟨rfl, rfl⟩
    | some o =>
      have ho := updateDisplay_not_message env _ o
        (show ("channel_name" : String) ≠ "message" from by decide) hsync
      rw [show (match some o with
          | some o => (ModeResult.okSet, o.gs, true || o.saved)
          | none =>
            (ModeResult.okSet,
              { gs with mode := "channel_name", channel_name_channel_id := some ch }, true)) =
          (ModeResult.okSet, o.gs, true || o.saved) from rfl, ho]
      exact ⟨rfl, rfl⟩
  · rw [hful2]
    cases hsync : updateDisplay env { gs with mode := "message" } with
    | none => rfl
    | some o =>
      rw [show (match some o with
          | some o => (ModeResult.okSet, o.gs, true || o.saved)
          | none => (ModeResult.okSet, { gs with mode := "message" }, true)) =
          (ModeResult.okSet, o.gs, true || o.saved) from rfl]
      rcases updateDisplay_cases env _ o hsync with h | h <;> rw [h]

/-- Claim C10 (amended): `render` raises on a template holding a replacement
field whose argument name is not `days`, or an unbalanced brace at the end of
otherwise literal text, and renders successfully when the only brace construct
is the single `\x7bdays\x7d` placeholder. -/
theorem C10_render_totality (gs : GuildState) (pre name post : List Char) :
    (gs.template.data = pre ++ '{' :: (name ++ '}' :: post) → braceFree pre = true →
      '}' ∉ name → name.head? ≠ some '{' → argNameOf name ≠ "days".data →
      renderText gs = .raised) ∧
    (gs.template.data = pre ++ ['{'] → braceFree pre = true → renderText gs = .raised) ∧
    (gs.template.data = pre ++ ['}'] → braceFree pre = true → renderText gs = .raised) ∧
    (gs.template.data = pre ++ '{' :: 'd' :: 'a' :: 'y' :: 's' :: '}' :: post →
      braceFree pre = true → braceFree post = true →
      ∃ t, renderText gs = FmtOut.ok t) := by
  refine ⟨?_, ?_, ?_, ?_⟩
  · intro h h1 hmem hstart hne
    unfold renderText
    rw [show pyFormatDays gs.template.data gs.days =
        pyFormatDays (pre ++ '{' :: (name ++ '}' :: post)) gs.days from by rw [h],
      pyFormatDays_badArg gs.days pre name post h1 hmem hstart hne]
  · intro h h1
    unfold renderText
    rw [show pyFormatDays gs.template.data gs.days =
        pyFormatDays (pre ++ ['{']) gs.days from by rw [h],
      pyFormatDays_openEnd gs.days pre h1]
  · intro h h1
    unfold renderText
    rw [show pyFormatDays gs.template.data gs.days =
        pyFormatDays (pre ++ ['}']) gs.days from by rw [h],
      pyFormatDays_closeEnd gs.days pre h1]
  · intro h h1 h2
    refine ⟨pre ++ (intChars gs.days ++ post), ?_⟩
    unfold renderText
    rw [show pyFormatDays gs.template.data gs.days =
        pyFormatDays (pre ++ '{' :: 'd' :: 'a' :: 'y' :: 's' :: '}' :: post) gs.days from by
          rw [h],
      pyFormatDays_good gs.days pre post h1 h2]

/-- Witness for C10 on concrete templates: a stray field, an unmatched opening
brace, an unmatched closing brace, and the default (well-formed) template. -/
theorem C10_witness :
    renderText { defaultGS 1 with template := "{foo}" } = .raised ∧
    renderText { defaultGS 1 with template := ⟨['a', '{']⟩ } = .raised ∧
    renderText { defaultGS 1 with template := ⟨['a', '}']⟩ } = .raised ∧
    ∃ t, renderText (defaultGS 1) = FmtOut.ok t := by
  refine ⟨?_, ?_, ?_, ?_⟩
  · exact (C10_render_totality _ [] ['f', 'o', 'o'] []).1 rfl rfl (by decide) (by decide)
      (by decide)
  · exact (C10_render_totality _ ['a'] [] []).2.1 rfl (by decide)
  · exact (C10_render_totality _ ['a'] [] []).2.2.1 rfl (by decide)
  · exact (C10_render_totality _ [] []
      (" days since Sean and Patrick talked about tanks".data)).2.2.2 rfl rfl (by decide)

/-- Counterexample to Claim C10 as stated: `gsSpecD`'s template is a single
replacement field carrying a format spec — a brace placeholder other than the
bare value placeholder (the template does not even contain the substring
`\x7bdays\x7d`) — yet `render` succeeds with the decimal text instead of
raising. -/
theorem C10_counterexample :
    countSub "{days}".data gsSpecD.template.data = 0 ∧
    countSub ['{'] gsSpecD.template.data = 1 ∧
    renderText gsSpecD = .ok ['0'] :=
  ⟨rfl, rfl, rfl⟩

/-! ### Claim C6 machinery -/

/-- After the scheme and subdomain, the committed `discord(?:app)?\.com` stage
agrees with trying the two host spellings in turn. -/
theorem afterScheme_eq (s : List Char) :
    afterScheme s =
      (tryFrom "discord.com/channels/".data s <|>
        tryFrom "discordapp.com/channels/".data s) := by
  cases h2 : stripLit "discord".data s with
  | none =>
    have hred : afterScheme s = none := by unfold afterScheme; rw [h2]
    have c3 : tryFrom "discord.com/channels/".data s = none := by
      rw [show "discord.com/channels/".data =
        "discord".data ++ ".com/channels/".data from rfl]
      exact tryFrom_none_left _ _ _ h2
    have c4 : tryFrom "discordapp.com/channels/".data s = none := by
      rw [show "discordapp.com/channels/".data =
        "discord".data ++ "app.com/channels/".data from rfl]
      exact tryFrom_none_left _ _ _ h2
    rw [hred, c3, c4]
    rfl
  | some s1 =>
    have hred : afterScheme s = afterHost s1 := by unfold afterScheme; rw [h2]
    have d3 : tryFrom "discord.com/channels/".data s = tryFrom ".com/channels/".data s1 := by
      rw [show "discord.com/channels/".data =
        "discord".data ++ ".com/channels/".data from rfl]
      exact tryFrom_append _ _ _ _ h2
    have d4 : tryFrom "discordapp.com/channels/".data s =
        tryFrom "app.com/channels/".data s1 := by
      rw [show "discordapp.com/channels/".data =
        "discord".data ++ "app.com/channels/".data from rfl]
      exact tryFrom_append _ _ _ _ h2
    cases h3 : stripLit "app".data s1 with
    | some s2 =>
      have happ : stripApp s1 = s2 := by unfold stripApp; rw [h3]
      have hs1 : s1 = "app".data ++ s2 := stripLit_eq_some.mp h3
      have f3 : tryFrom ".com/channels/".data s1 = none := by
        rw [hs1, show ".com/channels/".data = '.' :: "com/channels/".data from rfl,
          show ("app".data ++ s2 : List Char) = 'a' :: ("pp".data ++ s2) from rfl]
        exact tryFrom_head_ne (by decide) _ _
      have f4 : tryFrom "app.com/channels/".data s1 = tryFrom ".com/channels/".data s2 := by
        rw [show "app.com/channels/".data = "app".data ++ ".com/channels/".data from rfl]
        exact tryFrom_append _ _ _ _ h3
      rw [hred, d3, d4, f3, f4, Option.none_orElse]
      unfold afterHost
      rw [happ]
      cases h4 : stripLit ".com/channels/".data s2 with
      | none => unfold tryFrom; rw [h4]
      | some r => unfold tryFrom; rw [h4]
    | none =>
      have happ : stripApp s1 = s1 := by unfold stripApp; rw [h3]
      have f4 : tryFrom "app.com/channels/".data s1 = none := by
        rw [show "app.com/channels/".data = "app".data ++ ".com/channels/".data from rfl]
        exact tryFrom_none_left _ _ _ h3
      rw [hred, d3, d4, f4, Option.orElse_none]
      unfold afterHost
      rw [happ]
      cases h4 : stripLit ".com/channels/".data s1 with
      | none => unfold tryFrom; rw [h4]
      | some r => unfold tryFrom; rw [h4]

/-- With no `https://` prefix, no host spelling can match. -/
theorem linkPrefixSpec_noScheme (url : String)
    (h0 : stripLit "https://".data url.data = none) : linkPrefixSpec url = none := by
  unfold linkPrefixSpec hostFull
  have e : ∀ q : List Char, tryFrom ("https://".data ++ q) url.data = none := fun q =>
    tryFrom_none_left _ q _ h0
  have e1 : tryFrom "https://discord.com/channels/".data url.data = none := by
    rw [show "https://discord.com/channels/".data =
      "https://".data ++ "discord.com/channels/".data from rfl]
    exact e _
  have e2 : tryFrom "https://discordapp.com/channels/".data url.data = none := by
    rw [show "https://discordapp.com/channels/".data =
      "https://".data ++ "discordapp.com/channels/".data from rfl]
    exact e _
  have e3 : tryFrom "https://canary.discord.com/channels/".data url.data = none := by
    rw [show "https://canary.discord.com/channels/".data =
      "https://".data ++ "canary.discord.com/channels/".data from rfl]
    exact e _
  have e4 : tryFrom "https://canary.discordapp.com/channels/".data url.data = none := by
    rw [show "https://canary.discordapp.com/channels/".data =
      "https://".data ++ "canary.discordapp.com/channels/".data from rfl]
    exact e _
  have e5 : tryFrom "https://ptb.discord.com/channels/".data url.data = none := by
    rw [show "https://ptb.discord.com/channels/".data =
      "https://".data ++ "ptb.discord.com/channels/".data from rfl]
    exact e _
  have e6 : tryFrom "https://ptb.discordapp.com/channels/".data url.data = none := by
    rw [show "https://ptb.discordapp.com/channels/".data =
      "https://".data ++ "ptb.discordapp.com/channels/".data from rfl]
    exact e _
  simp [List.findSome?_cons, e1, e2, e3, e4, e5, e6]

/-- With a `canary.` subdomain, only the two canary host spellings can match,
and they reduce to the two `discord(?:app)?` alternatives on the remainder. -/
theorem linkPrefixSpec_canary (url : String) (s0 s0c : List Char)
    (h0 : stripLit "https://".data url.data = some s0)
    (h1 : stripLit "canary.".data s0 = some s0c) :
    linkPrefixSpec url =
      (tryFrom "discord.com/channels/".data s0c <|>
        tryFrom "discordapp.com/channels/".data s0c) := by
  have hs0 : s0 = "canary.".data ++ s0c := stripLit_eq_some.mp h1
  have e1 : tryFrom "https://discord.com/channels/".data url.data = none := by
    rw [show "https://discord.com/channels/".data =
      "https://".data ++ "discord.com/channels/".data from rfl,
      tryFrom_append _ _ _ _ h0, hs0,
      show "discord.com/channels/".data = 'd' :: "iscord.com/channels/".data from rfl,
      show ("canary.".data ++ s0c : List Char) = 'c' :: ("anary.".data ++ s0c) from rfl,
      tryFrom_head_ne (show ('d' : Char) ≠ 'c' from by decide)]
  have e2 : tryFrom "https://discordapp.com/channels/".data url.data = none := by
    rw [show "https://discordapp.com/channels/".data =
      "https://".data ++ "discordapp.com/channels/".data from rfl,
      tryFrom_append _ _ _ _ h0, hs0,
      show "discordapp.com/channels/".data = 'd' :: "iscordapp.com/channels/".data from rfl,
      show ("canary.".data ++ s0c : List Char) = 'c' :: ("anary.".data ++ s0c) from rfl,
      tryFrom_head_ne (show ('d' : Char) ≠ 'c' from by decide)]
  have e3 : tryFrom "https://canary.discord.com/channels/".data url.data =
      tryFrom "discord.com/channels/".data s0c := by
    rw [show "https://canary.discord.com/channels/".data =
      "https://".data ++ "canary.discord.com/channels/".data from rfl,
      tryFrom_append _ _ _ _ h0,
      show "canary.discord.com/channels/".data =
        "canary.".data ++ "discord.com/channels/".data from rfl,
      tryFrom_append _ _ _ _ h1]
  have e4 : tryFrom "https://canary.discordapp.com/channels/".data url.data =
      tryFrom "discordapp.com/channels/".data s0c := by
    rw [show "https://canary.discordapp.com/channels/".data =
      "https://".data ++ "canary.discordapp.com/channels/".data from rfl,
      tryFrom_append _ _ _ _ h0,
      show "canary.discordapp.com/channels/".data =
        "canary.".data ++ "discordapp.com/channels/".data from rfl,
      tryFrom_append _ _ _ _ h1]
  have e5 : tryFrom "https://ptb.discord.com/channels/".data url.data = none := by
    rw [show "https://ptb.discord.com/channels/".data =
      "https://".data ++ "ptb.discord.com/channels/".data from rfl,
      tryFrom_append _ _ _ _ h0, hs0,
      show "ptb.discord.com/channels/".data = 'p' :: "tb.discord.com/channels/".data from rfl,
      show ("canary.".data ++ s0c : List Char) = 'c' :: ("anary.".data ++ s0c) from rfl,
      tryFrom_head_ne (show ('p' : Char) ≠ 'c' from by decide)]
  have e6 : tryFrom "https://ptb.discordapp.com/channels/".data url.data = none := by
    rw [show "https://ptb.discordapp.com/channels/".data =
      "https://".data ++ "ptb.discordapp.com/channels/".data from rfl,
      tryFrom_append _ _ _ _ h0, hs0,
      show "ptb.discordapp.com/channels/".data =
        'p' :: "tb.discordapp.com/channels/".data from rfl,
      show ("canary.".data ++ s0c : List Char) = 'c' :: ("anary.".data ++ s0c) from rfl,
      tryFrom_head_ne (show ('p' : Char) ≠ 'c' from by decide)]
  unfold linkPrefixSpec hostFull
  simp only [List.findSome?_cons, List.findSome?_nil, e1, e2, e3, e4, e5, e6]
  cases tryFrom "discord.com/channels/".data s0c <;>
    cases tryFrom "discordapp.com/channels/".data s0c <;> rfl

/-- With a `ptb.` subdomain, only the two ptb host spellings can match. -/
theorem linkPrefixSpec_ptb (url : String) (s0 s0p : List Char)
    (h0 : stripLit "https://".data url.data = some s0)
    (h1 : stripLit "canary.".data s0 = none)
    (h1b : stripLit "ptb.".data s0 = some s0p) :
    linkPrefixSpec url =
      (tryFrom "discord.com/channels/".data s0p <|>
        tryFrom "discordapp.com/channels/".data s0p) := by
  have hs0 : s0 = "ptb.".data ++ s0p := stripLit_eq_some.mp h1b
  have e1 : tryFrom "https://discord.com/channels/".data url.data = none := by
    rw [show "https://discord.com/channels/".data =
      "https://".data ++ "discord.com/channels/".data from rfl,
      tryFrom_append _ _ _ _ h0, hs0,
      show "discord.com/channels/".data = 'd' :: "iscord.com/channels/".data from rfl,
      show ("ptb.".data ++ s0p : List Char) = 'p' :: ("tb.".data ++ s0p) from rfl,
      tryFrom_head_ne (show ('d' : Char) ≠ 'p' from by decide)]
  have e2 : tryFrom "https://discordapp.com/channels/".data url.data = none := by
    rw [show "https://discordapp.com/channels/".data =
      "https://".data ++ "discordapp.com/channels/".data from rfl,
      tryFrom_append _ _ _ _ h0, hs0,
      show "discordapp.com/channels/".data = 'd' :: "iscordapp.com/channels/".data from rfl,
      show ("ptb.".data ++ s0p : List Char) = 'p' :: ("tb.".data ++ s0p) from rfl,
      tryFrom_head_ne (show ('d' : Char) ≠ 'p' from by decide)]
  have e3 : tryFrom "https://canary.discord.com/channels/".data url.data = none := by
    rw [show "https://canary.discord.com/channels/".data =
      "https://".data ++ "canary.discord.com/channels/".data from rfl,
      tryFrom_append _ _ _ _ h0,
      show "canary.discord.com/channels/".data =
        "canary.".data ++ "discord.com/channels/".data from rfl]
    exact tryFrom_none_left _ _ _ h1
  have e4 : tryFrom "https://canary.discordapp.com/channels/".data url.data = none := by
    rw [show "https://canary.discordapp.com/channels/".data =
      "https://".data ++ "canary.discordapp.com/channels/".data from rfl,
      tryFrom_append _ _ _ _ h0,
      show "canary.discordapp.com/channels/".data =
        "canary.".data ++ "discordapp.com/channels/".data from rfl]
    exact tryFrom_none_left _ _ _ h1
  have e5 : tryFrom "https://ptb.discord.com/channels/".data url.data =
      tryFrom "discord.com/channels/".data s0p := by
    rw [show "https://ptb.discord.com/channels/".data =
      "https://".data ++ "ptb.discord.com/channels/".data from rfl,
      tryFrom_append _ _ _ _ h0,
      show "ptb.discord.com/channels/".data =
        "ptb.".data ++ "discord.com/channels/".data from rfl,
      tryFrom_append _ _ _ _ h1b]
  have e6 : tryFrom "https://ptb.discordapp.com/channels/".data url.data =
      tryFrom "discordapp.com/channels/".data s0p := by
    rw [show "https://ptb.discordapp.com/channels/".data =
      "https://".data ++ "ptb.discordapp.com/channels/".data from rfl,
      tryFrom_append _ _ _ _ h0,
      show "ptb.discordapp.com/channels/".data =
        "ptb.".data ++ "discordapp.com/channels/".data from rfl,
      tryFrom_append _ _ _ _ h1b]
  unfold linkPrefixSpec hostFull
  simp only [List.findSome?_cons, List.findSome?_nil, e1, e2, e3, e4, e5, e6]
  cases tryFrom "discord.com/channels/".data s0p <;>
    cases tryFrom "discordapp.com/channels/".data s0p <;> rfl

/-- With neither subdomain, only the two bare host spellings can match. -/
theorem linkPrefixSpec_plain (url : String) (s0 : List Char)
    (h0 : stripLit "https://".data url.data = some s0)
    (h1 : stripLit "canary.".data s0 = none)
    (h1b : stripLit "ptb.".data s0 = none) :
    linkPrefixSpec url =
      (tryFrom "discord.com/channels/".data s0 <|>
        tryFrom "discordapp.com/channels/".data s0) := by
  have e1 : tryFrom "https://discord.com/channels/".data url.data =
      tryFrom "discord.com/channels/".data s0 := by
    rw [show "https://discord.com/channels/".data =
      "https://".data ++ "discord.com/channels/".data from rfl,
      tryFrom_append _ _ _ _ h0]
  have e2 : tryFrom "https://discordapp.com/channels/".data url.data =
      tryFrom "discordapp.com/channels/".data s0 := by
    rw [show "https://discordapp.com/channels/".data =
      "https://".data ++ "discordapp.com/channels/".data from rfl,
      tryFrom_append _ _ _ _ h0]
  have e3 : tryFrom "https://canary.discord.com/channels/".data url.data = none := by
    rw [show "https://canary.discord.com/channels/".data =
      "https://".data ++ "canary.discord.com/channels/".data from rfl,
      tryFrom_append _ _ _ _ h0,
      show "canary.discord.com/channels/".data =
        "canary.".data ++ "discord.com/channels/".data from rfl]
    exact tryFrom_none_left _ _ _ h1
  have e4 : tryFrom "https://canary.discordapp.com/channels/".data url.data = none := by
    rw [show "https://canary.discordapp.com/channels/".data =
      "https://".data ++ "canary.discordapp.com/channels/".data from rfl,
      tryFrom_append _ _ _ _ h0,
      show "canary.discordapp.com/channels/".data =
        "canary.".data ++ "discordapp.com/channels/".data from rfl]
    exact tryFrom_none_left _ _ _ h1
  have e5 : tryFrom "https://ptb.discord.com/channels/".data url.data = none := by
    rw [show "https://ptb.discord.com/channels/".data =
      "https://".data ++ "ptb.discord.com/channels/".data from rfl,
      tryFrom_append _ _ _ _ h0,
      show "ptb.discord.com/channels/".data =
        "ptb.".data ++ "discord.com/channels/".data from rfl]
    exact tryFrom_none_left _ _ _ h1b
  have e6 : tryFrom "https://ptb.discordapp.com/channels/".data url.data = none := by
    rw [show "https://ptb.discordapp.com/channels/".data =
      "https://".data ++ "ptb.discordapp.com/channels/".data from rfl,
      tryFrom_append _ _ _ _ h0,
      show "ptb.discordapp.com/channels/".data =
        "ptb.".data ++ "discordapp.com/channels/".data from rfl]
    exact tryFrom_none_left _ _ _ h1b
  unfold linkPrefixSpec hostFull
  simp only [List.findSome?_cons, List.findSome?_nil, e1, e2, e3, e4, e5, e6]
  cases tryFrom "discord.com/channels/".data s0 <;>
    cases tryFrom "discordapp.com/channels/".data s0 <;> rfl

/-- Claim C6 (amended): `parseMessageLink` accepts exactly the inputs that
START with a recognized HTTPS message link — scheme `https://`, host
`discord.com`/`discordapp.com` optionally prefixed by `canary.` or `ptb.`,
path `/channels/` followed by three numeric segments — returning the three
maximal digit runs as ids and ignoring any trailing text after the message-id
digits; all other inputs fail with the invalid-format response. -/
theorem C6_parse_start_anchored (url : String) : parseMessageLink url = linkPrefixSpec url := by
  cases h0 : stripLit "https://".data url.data with
  | none =>
    have hred : parseMessageLink url = none := by unfold parseMessageLink; rw [h0]
    rw [hred, linkPrefixSpec_noScheme url h0]
  | some s0 =>
    have hred : parseMessageLink url = afterScheme (stripSub s0) := by
      unfold parseMessageLink; rw [h0]
    cases h1 : stripLit "canary.".data s0 with
    | some s0c =>
      rw [hred, show stripSub s0 = s0c from by unfold stripSub; rw [h1], afterScheme_eq,
        linkPrefixSpec_canary url s0 s0c h0 h1]
    | none =>
      cases h1b : stripLit "ptb.".data s0 with
      | some s0p =>
        rw [hred, show stripSub s0 = s0p from by unfold stripSub; rw [h1, h1b], afterScheme_eq,
          linkPrefixSpec_ptb url s0 s0p h0 h1 h1b]
      | none =>
        rw [hred, show stripSub s0 = s0 from by unfold stripSub; rw [h1, h1b], afterScheme_eq,
          linkPrefixSpec_plain url s0 h0 h1 h1b]

/-- Counterexample to Claim C6 as stated: `re.match` anchors only the START of
the string, so a link with a fourth path segment is accepted (ids 1, 2, 3)
even though its path is not `/channels/\x7bg\x7d/\x7bc\x7d/\x7bm\x7d` — the exact shape
(`linkExactSpec`, the spec's wording) rejects it. -/
theorem C6_counterexample :
    parseMessageLink "https://discord.com/channels/1/2/3/4" = some (1, 2, 3) ∧
    linkExactSpec "https://discord.com/channels/1/2/3/4" = none :=
  ⟨rfl, rfl⟩
